import Mathlib

/-!
# BlockTrace-api: verification of the chain transaction aggregation engine

Shallow embedding of the aggregation engine of the BlockTrace API
(`src/utils/solana.py`, `src/utils/eth.py`, `src/routes/data.py`,
`src/models/wallet_query_logs.py`) together with proofs of the spec's
testable properties.

Modelling conventions:
* timestamps are Unix seconds (`Int`); `datetime.now()` at the start of a
  request is an explicit `now : Int` parameter;
* Python floats (amounts, prices, fees, sleep delays) are `Rat`;
* network calls are oracles passed as function parameters: a detail fetch
  that resolved to `None` is `Option.none`;
* the `asyncio.gather` over each fixed-size sub-batch is sequentialized in
  task order (dedup-set reads and writes are not separated by any `await`
  in the source, so every interleaving yields this order-insensitive
  behaviour for the properties proved here).
-/

namespace BlockTrace

/-- Association-list lookup used to model Python `dict.get`:
later assignments shadow earlier ones because updates are consed on. -/
def lookupAssoc {α : Type} : List (String × α) → String → Option α
  | [], _ => none
  | (k, v) :: rest, key => if k = key then some v else lookupAssoc rest key

/-- Python `str.lower` on the ASCII strings this API handles, defined
structurally over the character list so that proofs can evaluate it. -/
def lower (s : String) : String := ⟨s.data.map Char.toLower⟩

/-! ## Tier policy (`src/utils/solana.py` lines 14-62, `src/utils/eth.py` lines 15-108) -/

/-- `SUBSCRIPTION_LIMITS` entry (both files declare the same numbers). -/
structure TierLimits where
  time_range_days : Nat
  daily_address_limit : Nat
  max_transactions : Nat
  graph_depth : Nat
  export_enabled : Bool
deriving Repr, DecidableEq

def freeTier : TierLimits :=
  { time_range_days := 7, daily_address_limit := 5, max_transactions := 50
    graph_depth := 1, export_enabled := false }

def proTier : TierLimits :=
  { time_range_days := 180, daily_address_limit := 50, max_transactions := 500
    graph_depth := 3, export_enabled := true }

/-- `get_subscription_limits`: unknown tier names fall back to "free". -/
def get_subscription_limits (tier : String) : TierLimits :=
  if lower tier = "free" then freeTier
  else if lower tier = "pro" then proTier
  else freeTier

/-- `calculate_time_range`: `datetime.now() - timedelta(days=days_back)`,
with `now` the request-start clock reading in Unix seconds. -/
def calculate_time_range (tier : String) (now : Int) : Int :=
  now - 86400 * (get_subscription_limits tier).time_range_days

/-! ## Price oracle cache (`src/utils/solana.py` lines 48-50 and 310-329;
`src/utils/eth.py` lines 91-93 and 531-545 are textually identical)

`_token_price_cache` maps a symbol to `{'price': p, 'timestamp': t}` and
`PRICE_CACHE_TTL = 300`.  The function `get_cached_token_price` is
additionally decorated with `functools.lru_cache(maxsize=100)`, which
memoizes the function's result per symbol for the lifetime of the process;
the memo is consulted before the function body runs.  (The `maxsize=100`
eviction never fires below 100 distinct symbols and is not modelled; every
run considered here touches far fewer symbols.) -/

def PRICE_CACHE_TTL : Int := 300

structure PriceState where
  /-- the `functools.lru_cache` memo table attached to the function -/
  lruMemo : List (String × Rat)
  /-- the module-level `_token_price_cache` dict: symbol ↦ (price, timestamp) -/
  ttlCache : List (String × Rat × Int)
deriving Repr, DecidableEq

structure PriceCallResult where
  price : Rat
  state : PriceState
  /-- whether this call invoked `get_token_price_usd_sync` (an upstream lookup) -/
  fetchedUpstream : Bool
deriving Repr, DecidableEq

/-- `get_cached_token_price(symbol)` at wall-clock `now`, with
`fetchPrice` standing for `get_token_price_usd_sync`. -/
def get_cached_token_price (fetchPrice : String → Rat) (st : PriceState)
    (symbol : String) (now : Int) : PriceCallResult :=
  match lookupAssoc st.lruMemo symbol with
  | some p => ⟨p, st, false⟩
  | none =>
    match lookupAssoc st.ttlCache symbol with
    | some (p, ts) =>
      if now - ts < PRICE_CACHE_TTL then
        ⟨p, { st with lruMemo := (symbol, p) :: st.lruMemo }, false⟩
      else
        let p := fetchPrice symbol
        ⟨p, ⟨(symbol, p) :: st.lruMemo, (symbol, p, now) :: st.ttlCache⟩, true⟩
    | none =>
      let p := fetchPrice symbol
      ⟨p, ⟨(symbol, p) :: st.lruMemo, (symbol, p, now) :: st.ttlCache⟩, true⟩

namespace Solana

/-! ## Detail-fetch retry loop (`src/utils/solana.py` lines 166-203)

`get_solana_transaction_details_async` returns `None` on a generic
upstream error (the `FetchFailed` condition) and raises an exception whose
text contains "429" on a rate limit (the `RateLimited` condition). -/

/-- Outcome of one call to `get_solana_transaction_details_async`. -/
inductive FetchOutcome where
  /-- the call returned a truthy `result` -/
  | success
  /-- the call returned `None` (timeout or any non-429 upstream error) -/
  | nullResult
  /-- the call raised the "429: Rate limited" exception -/
  | rateLimited
deriving Repr, DecidableEq

structure RetryResult where
  /-- the loop ended with `tx_data` set (the `break` branch) -/
  fetched : Bool
  /-- number of calls made to `get_solana_transaction_details_async` -/
  attempts : Nat
  /-- successive `asyncio.sleep` backoff delays, in seconds -/
  sleeps : List Rat
deriving Repr, DecidableEq

def max_retries : Nat := 3

/-- The `for attempt in range(max_retries)` loop of lines 183-203,
recursing on the remaining attempt budget (`remaining = max_retries -
attempt`, so `attempt < max_retries - 1` is exactly `remaining ≠ 1`).
On `nullResult` the loop sleeps `2 ** attempt` and retries; on a
rate-limit exception it sleeps `(2 ** attempt) + (attempt * 0.5)` and
retries; either kind falls through to `return None` on the last attempt. -/
def retryLoop (oracle : Nat → FetchOutcome) : Nat → Nat → RetryResult
  | _, 0 => ⟨false, 0, []⟩
  | attempt, remaining + 1 =>
    match oracle attempt with
    | .success => ⟨true, 1, []⟩
    | .nullResult =>
      if remaining = 0 then ⟨false, 1, []⟩
      else
        let r := retryLoop oracle (attempt + 1) remaining
        ⟨r.fetched, r.attempts + 1, ((2 : Rat) ^ attempt) :: r.sleeps⟩
    | .rateLimited =>
      if remaining = 0 then ⟨false, 1, []⟩
      else
        let r := retryLoop oracle (attempt + 1) remaining
        ⟨r.fetched, r.attempts + 1,
          (((2 : Rat) ^ attempt) + (attempt : Rat) / 2) :: r.sleeps⟩

/-- The whole retry phase of `process_single_transaction_with_retry`. -/
def detailFetchWithRetry (oracle : Nat → FetchOutcome) : RetryResult :=
  retryLoop oracle 0 max_retries

/-! ## Batch processor (`src/utils/solana.py` lines 158-308)

`parse_transaction_transfers` is a per-payload parser with no cross-item
state; its output list for a given signature is supplied by the detail
oracle, and the fields of `meta` that the processor reads (`fee`, `err`)
come with it.  A `none` from the oracle is a detail fetch whose retry
loop above ended without data. -/

/-- One element of the `parse_transaction_transfers` result list. -/
structure Transfer where
  source : String
  destination : String
  amount : Rat
  direction : String
  token : String
  token_address : Option String
deriving Repr, DecidableEq

/-- A resolved `getTransaction` payload, pre-parsed for the processor. -/
structure TxPayload where
  /-- `parse_transaction_transfers(tx_data, user_address)` -/
  transfers : List Transfer
  /-- `meta.fee / 1e9` -/
  fee : Rat
  /-- `meta.err is None` (drives `status`) -/
  errIsNone : Bool
deriving Repr, DecidableEq

/-- One element of the `getSignaturesForAddress` result list. -/
structure SigInfo where
  signature : String
  blockTime : Option Int
  slot : Nat
deriving Repr, DecidableEq

/-- One `transaction_data` record produced by the processor. -/
structure TxRecord where
  hash : String
  timestamp : Int
  chain : String
  fee : Rat
  status : String
  slot : Nat
  source : String
  destination : String
  amount : Rat
  direction : String
  token : String
  token_address : Option String
  usd_equivalent : Rat
deriving Repr, DecidableEq

/-- The dedup identity `(tx_hash, source, destination, amount, token)`. -/
abbrev TransferKey := String × String × String × Rat × String

def TxRecord.key (t : TxRecord) : TransferKey :=
  (t.hash, t.source, t.destination, t.amount, t.token)

/-- `SPL_TOKENS` (lines 36-46), reduced to mint ↦ symbol (only `symbol`
is read by the processor). -/
def SPL_TOKENS : List (String × String) :=
  [("EPjFWdd5AufqSSqeM2qN1xzybapC8G4wEGGkZwyTDt1v", "USDC"),
   ("Es9vMFrzaCERmJfrF4H2FYD4KCoNkY11McCe8BenwNYB", "USDT"),
   ("DezXAZ8z7PnrnRJjz3wXBoRgixCa6xjnB7YaB1pPB263", "BONK"),
   ("JUPyiwrYJFskUPiHa7hkeR8VUtAeFoSYbKedZNsDvCN", "JUP"),
   ("4k3Dyjzvzp8eMZWUXbBCjEvwSkkk59S5iCNLY3QrkX6R", "RAY"),
   ("MNDEFzGvMt87ueuHvVU9VcTqsAP5b3fTGPsHuuPA5ey", "MNDE"),
   ("7dHbWXmci3dT8UFYWYZweBLXgycu7Y3iL6trKn1Y7ARj", "stSOL"),
   ("So11111111111111111111111111111111111111112", "WSOL"),
   ("2zMMhcVQEXDtdE6vsFS7S7D5oUodfJHE8vd1gnBouauv", "PENGU")]

/-- The `usd_equivalent` computation of lines 240-247; `priceOf` stands
for `get_cached_token_price` (pre-warmed by `prefetch_prices`, so pure
within one run). -/
def usdEquivalent (priceOf : String → Rat) (tr : Transfer) : Rat :=
  if tr.token = "SOL" then tr.amount * priceOf "SOL"
  else
    match tr.token_address with
    | some addr =>
      match lookupAssoc SPL_TOKENS addr with
      | some symbol => tr.amount * priceOf symbol
      | none => 0
    | none => 0

/-- Fields of `base_tx_info` (lines 213-221) that records copy. -/
structure BaseTxInfo where
  hash : String
  timestamp : Int
  fee : Rat
  status : String
  slot : Nat
deriving Repr, DecidableEq

def mkRecord (priceOf : String → Rat) (base : BaseTxInfo) (tr : Transfer) : TxRecord :=
  { hash := base.hash, timestamp := base.timestamp, chain := "Solana"
    fee := base.fee, status := base.status, slot := base.slot
    source := tr.source, destination := tr.destination, amount := tr.amount
    direction := tr.direction, token := tr.token, token_address := tr.token_address
    usd_equivalent := usdEquivalent priceOf tr }

/-- The `for transfer in transfers` dedup loop of lines 226-255, threading
the shared `seen_transfers` set. -/
def processTransfers (priceOf : String → Rat) (base : BaseTxInfo) :
    List Transfer → List TransferKey → List TxRecord × List TransferKey
  | [], seen => ([], seen)
  | tr :: rest, seen =>
    let k : TransferKey := (base.hash, tr.source, tr.destination, tr.amount, tr.token)
    if k ∈ seen then processTransfers priceOf base rest seen
    else
      let step := processTransfers priceOf base rest (k :: seen)
      (mkRecord priceOf base tr :: step.1, step.2)

/-- The synthetic record of lines 256-266, emitted when the payload
parses to zero transfers. -/
def syntheticRecord (user_address : String) (base : BaseTxInfo) : TxRecord :=
  { hash := base.hash, timestamp := base.timestamp, chain := "Solana"
    fee := base.fee, status := base.status, slot := base.slot
    source := user_address, destination := "System Program", amount := 0
    direction := "interaction", token := "SOL", token_address := none
    usd_equivalent := 0 }

/-- `process_single_transaction_with_retry` (lines 166-268) with the
retry phase resolved by `detail`: skip items without a truthy
`blockTime` (`if not block_time:` at line 172 is Python falsiness, so a
present `blockTime` equal to `0` is also skipped), skip items older than
`earliest_time`, drop items whose detail fetch failed, then either dedup
the parsed transfers or emit the synthetic record (which is **not**
checked against nor added to `seen_transfers`). -/
def process_single_transaction (priceOf : String → Rat) (user_address : String)
    (earliest_time : Int) (detail : String → Option TxPayload)
    (seen : List TransferKey) (sig : SigInfo) :
    Option (List TxRecord) × List TransferKey :=
  match sig.blockTime with
  | none => (none, seen)
  | some t =>
    if t = 0 then (none, seen)
    else if t < earliest_time then (none, seen)
    else
      match detail sig.signature with
      | none => (none, seen)
      | some payload =>
        let base : BaseTxInfo :=
          { hash := sig.signature, timestamp := t, fee := payload.fee
            status := if payload.errIsNone then "success" else "failed"
            slot := sig.slot }
        match payload.transfers with
        | [] => (some [syntheticRecord user_address base], seen)
        | _ =>
          let step := processTransfers priceOf base payload.transfers seen
          (some step.1, step.2)

/-- The full record stream of a run: every signature processed in task
order with the shared dedup set threaded through. -/
def processAll (priceOf : String → Rat) (user_address : String)
    (earliest_time : Int) (detail : String → Option TxPayload) :
    List SigInfo → List TransferKey → List TxRecord
  | [], _ => []
  | sig :: rest, seen =>
    let step := process_single_transaction priceOf user_address earliest_time detail seen sig
    step.1.getD [] ++ processAll priceOf user_address earliest_time detail rest step.2

/-- The driver loop of lines 270-308.  The source walks the signatures in
sub-batches of 5, appends each task's records in task order, returns
`transactions[:max_transactions]` the moment the count reaches
`max_transactions`, breaks between batches on the same condition, and
ends with `return transactions[:max_transactions]`.  The sub-batch
boundaries only decide how many extra tasks run past the cutoff, never
which records are returned, so the loop is modelled one signature at a
time with the same stop condition and final truncation. -/
def batchLoop (priceOf : String → Rat) (user_address : String)
    (earliest_time : Int) (detail : String → Option TxPayload)
    (max_transactions : Nat) :
    List SigInfo → List TxRecord → List TransferKey → List TxRecord
  | [], acc, _ => acc.take max_transactions
  | sig :: rest, acc, seen =>
    if max_transactions ≤ acc.length then acc.take max_transactions
    else
      let step := process_single_transaction priceOf user_address earliest_time detail seen sig
      batchLoop priceOf user_address earliest_time detail max_transactions
        rest (acc ++ step.1.getD []) step.2

/-- `process_transactions_batch_async`. -/
def process_transactions_batch (priceOf : String → Rat) (user_address : String)
    (signatures : List SigInfo) (max_transactions : Nat) (earliest_time : Int)
    (detail : String → Option TxPayload) : List TxRecord :=
  batchLoop priceOf user_address earliest_time detail max_transactions signatures [] []

/-! ## Signature pre-filter (`src/utils/solana.py` lines 543-558)

`get_solana_transactions_for_graph_async` keeps only signatures with a
truthy `blockTime` (`if block_time:` at line 551 drops both a missing and
a zero `blockTime`) at or after `earliest_time`, and breaks out of the
scan as soon as `max_transactions` survivors are collected (the break
condition is tested after each iteration, appending or not). -/
def filter_signatures (earliest_time : Int) (max_transactions : Nat) :
    List SigInfo → List SigInfo
  | [] => []
  | sig :: rest =>
    let keep : Bool := match sig.blockTime with
      | some t => if t = 0 then false else decide (earliest_time ≤ t)
      | none => false
    if keep then
      if max_transactions ≤ 1 then [sig]
      else sig :: filter_signatures earliest_time (max_transactions - 1) rest
    else
      if max_transactions = 0 then []
      else filter_signatures earliest_time max_transactions rest

/-! ## Graph assembly (`src/utils/solana.py` lines 577-699) -/

structure GraphNode where
  id : String
  label : String
  type : String
  balance : Option Rat
  full_address : String
deriving Repr, DecidableEq

structure GraphEdge where
  source : String
  destination : String
  transaction_hash : String
  timestamp : Int
  amount : Rat
  token : String
  token_address : Option String
  direction : String
  usd_equivalent : Rat
  fee : Rat
  status : String
  chain : String
  weight : Rat
deriving Repr, DecidableEq

/-- `f"{s[:8]}...{s[-8:]}" if len(s) > 16 else s` for external nodes. -/
def externalLabel (s : String) : String :=
  if 16 < s.length then s.take 8 ++ "..." ++ s.drop (s.length - 8) else s

def mainNode (address : String) (balance : Rat) : GraphNode :=
  { id := address
    label := address.take 8 ++ "..." ++ address.drop (address.length - 8)
    type := "main_wallet", balance := some balance, full_address := address }

def externalNode (a : String) : GraphNode :=
  { id := a, label := externalLabel a, type := "external_wallet"
    balance := none, full_address := a }

def edgeOfTx (tx : TxRecord) : GraphEdge :=
  { source := tx.source, destination := tx.destination
    transaction_hash := tx.hash, timestamp := tx.timestamp
    amount := tx.amount, token := tx.token, token_address := tx.token_address
    direction := tx.direction, usd_equivalent := tx.usd_equivalent
    fee := tx.fee, status := tx.status, chain := tx.chain, weight := tx.amount }

/-- The "add node if not exists" block of lines 620-638, run once for the
source and once for the destination; state is (nodes, seen_addresses) with
Python's insertion order preserved. -/
def addNode (st : List GraphNode × List String) (a : String) :
    List GraphNode × List String :=
  if a ∈ st.2 then st else (st.1 ++ [externalNode a], st.2 ++ [a])

/-- The `for tx in transactions` loop of lines 616-655: add unseen source
and destination nodes, then append one edge per transaction. -/
def buildGraphLoop (txs : List TxRecord) (st : List GraphNode × List String)
    (edges : List GraphEdge) : List GraphNode × List GraphEdge :=
  match txs with
  | [] => (st.1, edges)
  | tx :: rest =>
    buildGraphLoop rest (addNode (addNode st tx.source) tx.destination)
      (edges ++ [edgeOfTx tx])

structure LimitationsApplied where
  time_limited : Bool
  transaction_limited : Bool
deriving Repr, DecidableEq

structure Summary where
  total_incoming : Nat
  total_outgoing : Nat
  total_solana_volume : Rat
  unique_addresses : Nat
  date_earliest : Option Int
  date_latest : Option Int
  allowed_days_back : Nat
  tokens_found : List String
  limitations_applied : LimitationsApplied
deriving Repr, DecidableEq

structure GraphResponse where
  wallet_address : String
  balance : Rat
  chain : String
  subscription_tier : String
  tier_limits : TierLimits
  total_transactions : Nat
  nodes : List GraphNode
  edges : List GraphEdge
  summary : Summary
deriving Repr, DecidableEq

/-- The response assembly of `get_wallet_graph_data` (lines 601-690) from
an already-computed balance and transaction list.  `tokens_found` is
`list(set(...))` in the source, whose iteration order is unspecified;
it is modelled with first-occurrence order, and no theorem below depends
on that order. -/
def assembleResponse (address : String) (tier : String) (balance : Rat)
    (txs : List TxRecord) : GraphResponse :=
  let limits := get_subscription_limits tier
  let graph := buildGraphLoop txs ([mainNode address balance], [address]) []
  { wallet_address := address, balance := balance, chain := "Solana"
    subscription_tier := lower tier, tier_limits := limits
    total_transactions := txs.length
    nodes := graph.1, edges := graph.2
    summary :=
      { total_incoming := (txs.filter (fun tx => tx.direction = "incoming")).length
        total_outgoing := (txs.filter (fun tx => tx.direction = "outgoing")).length
        total_solana_volume :=
          ((txs.filter (fun tx => tx.token = "SOL")).map (fun tx => tx.amount)).sum
        unique_addresses := graph.1.length - 1
        date_earliest := (txs.map (fun tx => tx.timestamp)).min?
        date_latest := (txs.map (fun tx => tx.timestamp)).max?
        allowed_days_back := limits.time_range_days
        tokens_found := (txs.map (fun tx => tx.token)).eraseDups
        limitations_applied :=
          { time_limited := decide (0 < txs.length)
            transaction_limited := txs.length == limits.max_transactions } } }

/-- `get_wallet_graph_data` composed with
`get_solana_transactions_for_graph_async`: filter the signature list,
run the batch processor, assemble the response. -/
def get_wallet_graph_data (priceOf : String → Rat)
    (detail : String → Option TxPayload) (address : String) (tier : String)
    (balance : Rat) (signatures : List SigInfo) (now : Int) : GraphResponse :=
  let limits := get_subscription_limits tier
  let earliest_time := calculate_time_range tier now
  let filtered := filter_signatures earliest_time limits.max_transactions signatures
  let txs := process_transactions_batch priceOf address filtered
    limits.max_transactions earliest_time detail
  assembleResponse address tier balance txs

end Solana

namespace Eth

/-! ## Detail-fetch retry loop (`src/utils/eth.py` lines 322-335)

`get_transaction_details_async` and `get_transaction_receipt_async` catch
every exception internally and return `None` (lines 267-288, 243-264), so
the body of the `for attempt in range(max_retries)` loop can only reach
`break`; the `except` branch that would sleep `2 ** attempt` is dead.
An attempt outcome is therefore a pair of optional results, and `raised`
is kept in the model only to mirror the loop's shape. -/

structure TxDetail where
  /-- `gasPrice`, in wei -/
  gasPrice : Nat
deriving Repr, DecidableEq

structure TxReceipt where
  /-- `gasUsed` -/
  gasUsed : Nat
  /-- whether `status == "0x1"` -/
  statusOk : Bool
deriving Repr, DecidableEq

inductive AttemptOutcome where
  /-- both helper calls returned (each possibly `None`) -/
  | value (d : Option TxDetail) (r : Option TxReceipt)
  /-- an exception escaped the helpers (cannot happen: they catch everything) -/
  | raised
deriving Repr, DecidableEq

def max_retries : Nat := 3

/-- The retry loop of lines 322-335: result, attempt count, sleeps. -/
def retryLoop (oracle : Nat → AttemptOutcome) :
    Nat → Nat → Option (Option TxDetail × Option TxReceipt) × Nat × List Rat
  | _, 0 => (none, 0, [])
  | attempt, remaining + 1 =>
    match oracle attempt with
    | .value d r => (some (d, r), 1, [])
    | .raised =>
      if remaining = 0 then (none, 1, [])
      else
        let (res, n, s) := retryLoop oracle (attempt + 1) remaining
        (res, n + 1, ((2 : Rat) ^ attempt) :: s)

/-! ## Batch processor (`src/utils/eth.py` lines 291-528) -/

/-- One element of the `alchemy_getAssetTransfers` result list, with the
wire encodings already decoded: `blockNum` hex → `Nat`,
`metadata.blockTimestamp` ISO string → Unix seconds (`none` when the
metadata carries no timestamp), `rawContract.value` hex → `Nat`. -/
structure AlchemyTransfer where
  hash : Option String
  blockNum : Option Nat
  fromAddress : String
  toAddress : String
  /-- `transfer["value"]` (Alchemy's already-scaled decimal value) -/
  value : Rat
  category : String
  /-- `rawContract.address` -/
  contractAddress : Option String
  /-- `rawContract.decimal`, with the source's default of 18 applied -/
  contractDecimal : Nat
  /-- `rawContract.value` parsed as an integer, default 0 -/
  contractValue : Nat
  blockTimestamp : Option Int
deriving Repr, DecidableEq

/-- `ERC20_TOKENS` (lines 38-89): contract address (lowercased, as the
processor compares them) ↦ (symbol, decimals). -/
def ERC20_TOKENS : List (String × String × Nat) :=
  [("0xa0b86a33e6441c47b3ff2b52d97f11c42d7b70e5", ("USDC", 6)),
   ("0xdac17f958d2ee523a2206206994597c13d831ec7", ("USDT", 6)),
   ("0x2260fac5e5542a773aa44fbcfedf7c193bc2c599", ("WBTC", 8)),
   ("0xc02aaa39b223fe8d0a0e5c4f27ead9083c756cc2", ("WETH", 18)),
   ("0x1f9840a85d5af5bf1d1762f925bdaddc4201f984", ("UNI", 18)),
   ("0x7d1afa7b718fb893db30a3abc0cfc608aacfebb0", ("MATIC", 18)),
   ("0x514910771af9ca656af840dff83e8264ecf986ca", ("LINK", 18)),
   ("0x6b175474e89094c44da98b954eedeac495271d0f", ("DAI", 18)),
   ("0x95ad61b0a150d79219dcf64e1e6cc01f0b64c4ce", ("SHIB", 18)),
   ("0x4fabb145d64652a948d72533023f6e7a623c7c53", ("BUSD", 18))]

/-- One `transaction_data` record produced by the Ethereum processor. -/
structure EthRecord where
  hash : String
  timestamp : Int
  chain : String
  source : String
  destination : String
  amount : Rat
  direction : String
  token : String
  token_address : Option String
  fee : Rat
  status : String
  block_number : Nat
  usd_equivalent : Rat
  category : String
deriving Repr, DecidableEq

def EthRecord.key (t : EthRecord) : Solana.TransferKey :=
  (t.hash, t.source, t.destination, t.amount, t.token)

/-- The record assembly of `process_single_transfer_with_retry` (lines
341-478): timestamp from metadata or block-number estimate (current block
pinned at 21000000, 12 s per block), fee from the receipt, lowercased
direction, amount/token decode per category, usd pricing.  The dedup key
`(tx_hash, from_address, to_address, amount, token_symbol)` of lines
452-458 is exactly `EthRecord.key` of this record, all five components
being copied into the record unchanged. -/
def mkEthRecord (priceOf : String → Rat) (user_address : String) (now : Int)
    (d : TxDetail) (tx_receipt : Option TxReceipt) (tx_hash : String)
    (block_num : Nat) (tr : AlchemyTransfer) : EthRecord :=
  let tx_timestamp : Int :=
    match tr.blockTimestamp with
    | some ts => ts
    | none => now - ((21000000 : Int) - block_num) * 12
  let fee : Rat :=
    match tx_receipt with
    | some r => ((r.gasUsed * d.gasPrice : Nat) : Rat) / (10 : Rat) ^ 18
    | none => 0
  let from_address := lower tr.fromAddress
  let to_address := lower tr.toAddress
  let user_lower := lower user_address
  let direction :=
    if from_address = user_lower then "outgoing"
    else if to_address = user_lower then "incoming"
    else "interaction"
  let decoded : String × Option String × Rat :=
    if tr.category = "external" ∨ tr.category = "internal" then
      ("ETH", none, tr.value)
    else
      let taddr := lower (tr.contractAddress.getD "")
      match lookupAssoc (ERC20_TOKENS.map (fun p => (p.1, p.2))) taddr with
      | some (symbol, decimals) =>
        (symbol, some taddr, (tr.contractValue : Rat) / (10 : Rat) ^ decimals)
      | none =>
        ("TOKEN_" ++ taddr.take 8, some taddr,
          (tr.contractValue : Rat) / (10 : Rat) ^ tr.contractDecimal)
  let token_symbol := decoded.1
  let amount := decoded.2.2
  let usd_equivalent :=
    if token_symbol = "ETH" then amount * priceOf "ETH"
    else amount * priceOf token_symbol
  { hash := tx_hash, timestamp := tx_timestamp, chain := "Ethereum"
    source := from_address, destination := to_address
    amount := amount, direction := direction, token := token_symbol
    token_address := decoded.2.1, fee := fee
    status := match tx_receipt with
      | some r => if r.statusOk then "success" else "failed"
      | none => "failed"
    block_number := block_num, usd_equivalent := usd_equivalent
    category := tr.category }

/-- `process_single_transfer_with_retry` (lines 302-490) with the detail
and receipt fetches resolved by oracles (the retry loop always performs
exactly one attempt, see `Eth.retryLoop`): skip on missing hash or block
number, drop on a failed detail fetch, skip when the (possibly estimated)
timestamp predates `earliest_time`, then the dedup-key check.  The record
fields not inspected by those checks are pure computations, so assembling
the whole record before the checks is behaviour-preserving. -/
def process_single_transfer (priceOf : String → Rat) (user_address : String)
    (earliest_time : Int) (now : Int)
    (detailOf : String → Option TxDetail) (receiptOf : String → Option TxReceipt)
    (seen : List Solana.TransferKey) (tr : AlchemyTransfer) :
    Option EthRecord × List Solana.TransferKey :=
  match tr.hash, tr.blockNum with
  | some tx_hash, some block_num =>
    match detailOf tx_hash with
    | none => (none, seen)
    | some d =>
      let r := mkEthRecord priceOf user_address now d (receiptOf tx_hash)
        tx_hash block_num tr
      if r.timestamp < earliest_time then (none, seen)
      else if r.key ∈ seen then (none, seen)
      else (some r, r.key :: seen)
  | _, _ => (none, seen)

/-- The full record stream of an Ethereum run, one transfer at a time in
task order with the shared dedup set threaded through. -/
def processAll (priceOf : String → Rat) (user_address : String)
    (earliest_time : Int) (now : Int)
    (detailOf : String → Option TxDetail) (receiptOf : String → Option TxReceipt) :
    List AlchemyTransfer → List Solana.TransferKey → List EthRecord
  | [], _ => []
  | tr :: rest, seen =>
    let step := process_single_transfer priceOf user_address earliest_time now
      detailOf receiptOf seen tr
    step.1.toList ++
      processAll priceOf user_address earliest_time now detailOf receiptOf rest step.2

/-- The driver loop of lines 492-528 (sub-batches of 10, early return at
`max_transactions`, final `transactions[:max_transactions]`); as for
Solana, the sub-batch boundaries never change the returned list, so the
loop is modelled one transfer at a time. -/
def batchLoop (priceOf : String → Rat) (user_address : String)
    (earliest_time : Int) (now : Int)
    (detailOf : String → Option TxDetail) (receiptOf : String → Option TxReceipt)
    (max_transactions : Nat) :
    List AlchemyTransfer → List EthRecord → List Solana.TransferKey → List EthRecord
  | [], acc, _ => acc.take max_transactions
  | tr :: rest, acc, seen =>
    if max_transactions ≤ acc.length then acc.take max_transactions
    else
      let step := process_single_transfer priceOf user_address earliest_time now
        detailOf receiptOf seen tr
      batchLoop priceOf user_address earliest_time now detailOf receiptOf
        max_transactions rest (acc ++ step.1.toList) step.2

/-- `process_eth_transfers_batch_async`. -/
def process_eth_transfers_batch (priceOf : String → Rat) (user_address : String)
    (transfers : List AlchemyTransfer) (max_transactions : Nat)
    (earliest_time : Int) (now : Int)
    (detailOf : String → Option TxDetail) (receiptOf : String → Option TxReceipt) :
    List EthRecord :=
  batchLoop priceOf user_address earliest_time now detailOf receiptOf
    max_transactions transfers [] []

end Eth

/-! ## Query log and daily quota
(`src/models/wallet_query_logs.py`, `src/utils/solana.py` lines 707-784;
`src/utils/eth.py` lines 819-922 runs the identical quota logic) -/

structure WalletQueryLog where
  userId : String
  wallet_address : String
  tier : String
  chain : String
  created_at : String
deriving Repr, DecidableEq

namespace WalletQueryLogs

/-- `WalletQueryLogs.from_query`: the stored `wallet_address` is
`wallet_address.lower()` for **every** chain; `created_at` is the insert
wall-clock ISO string, passed in explicitly. -/
def from_query (user_id : String) (wallet_address : String) (tier : String)
    (chain : String) (created_at : String) : WalletQueryLog :=
  { userId := user_id, wallet_address := lower wallet_address
    tier := tier, chain := lower chain, created_at := created_at }

end WalletQueryLogs

deriving instance DecidableEq for Except

namespace Endpoint

structure HTTPError where
  status : Nat
  detail : String
deriving Repr, DecidableEq

structure RateLimitInfo where
  addresses_used_today : Nat
  daily_limit : Nat
  remaining : Int
deriving Repr, DecidableEq

/-- What `analyze_solana_wallet_endpoint` returns when it does not raise:
either an `{"error": ...}` dict (rejected input, HTTP 200) or the graph
payload with the per-tier `rate_limit_info`.  The payload type is a
parameter: the quota decision must not depend on it. -/
inductive EndpointResult (α : Type) where
  | errorDict (msg : String)
  | success (data : α) (rate_limit_info : RateLimitInfo)
deriving Repr, DecidableEq

/-- The `wallet_address.lower() not in used_addresses and
len(used_addresses) >= limit` rejection test (lines 741 and 756). -/
def quota_rejected (limit : Nat) (used_addresses : List String)
    (wallet_address : String) : Prop :=
  lower wallet_address ∉ used_addresses ∧ limit ≤ used_addresses.length

instance (limit : Nat) (used : List String) (addr : String) :
    Decidable (quota_rejected limit used addr) := by
  unfold quota_rejected; infer_instance

/-- Effect of `insert_one(WalletQueryLogs.from_query(...))` on the day's
distinct-address set that the next `db.distinct` call will report. -/
def logQuery (used_addresses : List String) (wallet_address : String) :
    List String :=
  if lower wallet_address ∈ used_addresses then used_addresses
  else used_addresses ++ [lower wallet_address]

def free_daily_limit : Nat := freeTier.daily_address_limit
def pro_daily_limit : Nat := proTier.daily_address_limit

/-- The `rate_limit_info` dict for the free branch (lines 770-775):
note the literal `5` in `remaining`. -/
def freeRateLimitInfo (used_addresses : List String) (wallet_address : String) :
    RateLimitInfo :=
  let d : Int := if lower wallet_address ∉ used_addresses then 1 else 0
  { addresses_used_today := used_addresses.length +
      (if lower wallet_address ∉ used_addresses then 1 else 0)
    daily_limit := free_daily_limit
    remaining := max 0 (5 - (used_addresses.length : Int) - d) }

/-- The `rate_limit_info` dict for the pro branch (lines 777-782):
note the literal `50` in `remaining`. -/
def proRateLimitInfo (used_addresses : List String) (wallet_address : String) :
    RateLimitInfo :=
  let d : Int := if lower wallet_address ∉ used_addresses then 1 else 0
  { addresses_used_today := used_addresses.length +
      (if lower wallet_address ∉ used_addresses then 1 else 0)
    daily_limit := pro_daily_limit
    remaining := max 0 (50 - (used_addresses.length : Int) - d) }

/-- `analyze_solana_wallet_endpoint` (lines 714-784).  `used_addresses`
is what `db.distinct` reports for this user/tier today before the call;
`graphData` is the already-resolved `get_wallet_graph_data` result.
Returns the endpoint result together with the distinct-address set after
the call's `insert_one`.  An `Except.error` is a raised `HTTPException`. -/
def analyze_solana_wallet_endpoint (α : Type) (used_addresses : List String)
    (wallet_address : String) (tier : String) (graphData : α) :
    Except HTTPError (EndpointResult α × List String) :=
  if wallet_address = "" then
    .ok (.errorDict "Wallet address is required", used_addresses)
  else if lower tier ≠ "free" ∧ lower tier ≠ "pro" then
    .ok (.errorDict "Invalid tier. Must be 'free' or 'pro'", used_addresses)
  else if lower tier = "free" ∧
      quota_rejected free_daily_limit used_addresses wallet_address then
    .error ⟨403, "Free tier daily limit reached."⟩
  else if lower tier = "pro" ∧
      quota_rejected pro_daily_limit used_addresses wallet_address then
    .error ⟨403, "Pro tier daily limit reached."⟩
  else
    let used' := logQuery used_addresses wallet_address
    if lower tier = "free" then
      .ok (.success graphData (freeRateLimitInfo used_addresses wallet_address), used')
    else
      .ok (.success graphData (proRateLimitInfo used_addresses wallet_address), used')

/-- `str()` of a starlette `HTTPException` (its `__str__` is
`f"{status_code}: {detail}"`). -/
def strOfHTTPException (e : HTTPError) : String :=
  toString e.status ++ ": " ++ e.detail

/-- The `POST /wallet` handler `fetch_wallet_data`
(`src/routes/data.py` lines 32-88) on the Solana branch with a Redis
miss.  The whole body sits in `try: ... except Exception as e:
raise HTTPException(status_code=500, detail=str(e))`, and
`fastapi.HTTPException` derives from `Exception`, so every inner
`HTTPException` — the 400 address rejections and the 403 quota
rejections alike — is caught and re-raised as a 500. -/
def fetch_wallet_data (α : Type) (validAddress : Bool)
    (used_addresses : List String) (wallet_address : String) (tier : String)
    (graphData : α) : Except HTTPError (EndpointResult α × List String) :=
  let inner : Except HTTPError (EndpointResult α × List String) :=
    if ¬ validAddress then .error ⟨400, "Invalid Solana address"⟩
    else analyze_solana_wallet_endpoint α used_addresses wallet_address tier graphData
  match inner with
  | .ok r => .ok r
  | .error e => .error ⟨500, strOfHTTPException e⟩

end Endpoint

/-! ## Concurrency gate (`src/utils/solana.py` lines 163-167,
`src/utils/eth.py` lines 299-303)

Each per-item task wraps its whole body in `async with semaphore`, where
`semaphore = asyncio.Semaphore(3)` (Solana) or `asyncio.Semaphore(5)`
(Ethereum).  A task acquires the gate before its first fetch and releases
it after its last, so "detail fetch in flight" = "task holding the gate".
The semaphore's semantics: an acquire suspends unless fewer than `limit`
tasks currently hold the gate. -/

inductive TaskPhase where
  | waiting
  | running
  | done
deriving Repr, DecidableEq

def runningCount (ts : List TaskPhase) : Nat :=
  ts.countP (fun p => decide (p = TaskPhase.running))

/-- One scheduler step of a semaphore-gated task pool. -/
inductive SemStep (limit : Nat) : List TaskPhase → List TaskPhase → Prop
  | acquire (pre post : List TaskPhase) :
      runningCount pre + runningCount post < limit →
      SemStep limit (pre ++ TaskPhase.waiting :: post) (pre ++ TaskPhase.running :: post)
  | release (pre post : List TaskPhase) :
      SemStep limit (pre ++ TaskPhase.running :: post) (pre ++ TaskPhase.done :: post)

/-- `asyncio.Semaphore(3)` — solana.py line 164. -/
def solana_semaphore_limit : Nat := 3

/-- `asyncio.Semaphore(5)` — eth.py line 300. -/
def eth_semaphore_limit : Nat := 5

/-! # Theorems -/

/-! ## C3: price cache TTL -/

/-- C3: the claim "getPrice performs an upstream price lookup exactly when
the cache has no entry for the symbol or the cached entry's age is at
least the 5-minute TTL; in particular a second lookup of the same symbol
after the TTL has elapsed re-queries upstream" fails on the code: the
`functools.lru_cache` decorator on `get_cached_token_price` memoizes the
result per symbol for the process lifetime, so the TTL branch in the body
is dead after a symbol's first call.  Evaluation at the failing input: a
first lookup of "SOL" at t = 0 fetches upstream and stores a TTL entry
with timestamp 0; a second lookup at t = 400 (age 400 ≥ TTL 300) performs
no upstream lookup and leaves the cache untouched. -/
theorem C3_lru_cache_defeats_ttl :
    (get_cached_token_price (fun _ => 100) ⟨[], []⟩ "SOL" 0).fetchedUpstream = true ∧
    lookupAssoc (get_cached_token_price (fun _ => 100) ⟨[], []⟩ "SOL" 0).state.ttlCache
      "SOL" = some (100, 0) ∧
    PRICE_CACHE_TTL ≤ 400 - 0 ∧
    (get_cached_token_price (fun _ => 100)
      (get_cached_token_price (fun _ => 100) ⟨[], []⟩ "SOL" 0).state
      "SOL" 400).fetchedUpstream = false ∧
    (get_cached_token_price (fun _ => 100)
      (get_cached_token_price (fun _ => 100) ⟨[], []⟩ "SOL" 0).state
      "SOL" 400).state =
      (get_cached_token_price (fun _ => 100) ⟨[], []⟩ "SOL" 0).state := by
  decide

/-! ## C4: retry policy -/

theorem retryLoop_attempts_le (oracle : Nat → Solana.FetchOutcome) :
    ∀ (remaining attempt : Nat),
      (Solana.retryLoop oracle attempt remaining).attempts ≤ remaining := by
  intro remaining
  induction remaining with
  | zero => intro attempt; simp [Solana.retryLoop]
  | succ n ih =>
    intro attempt
    unfold Solana.retryLoop
    cases h : oracle attempt with
    | success => simp
    | nullResult =>
      by_cases hn : n = 0
      · simp [hn]
      · simp only [if_neg hn]
        exact Nat.succ_le_succ (ih (attempt + 1))
    | rateLimited =>
      by_cases hn : n = 0
      · simp [hn]
      · simp only [if_neg hn]
        exact Nat.succ_le_succ (ih (attempt + 1))

/-- C4 (counterexample): the claim says a detail fetch failing with the
generic `FetchFailed` condition "is not retried at all: the item is
dropped after the first such failure".  On the Solana processor a fetch
that keeps returning `None` (the generic-failure path) is attempted 3
times, sleeping `2 ** attempt` seconds between attempts — not once. -/
theorem C4_fetchfailed_is_retried :
    Solana.detailFetchWithRetry (fun _ => .nullResult) =
      { fetched := false, attempts := 3, sleeps := [1, 2] } ∧
    (Solana.detailFetchWithRetry (fun _ => .nullResult)).attempts ≠ 1 := by
  decide

/-- C4 (amended): in the Solana batch processor every detail-fetch
failure — the rate-limited kind and the generic null-result kind alike —
is retried up to the fixed ceiling of `max_retries = 3` attempts, with
backoff `2 ** attempt + attempt / 2` seconds after a rate limit and
`2 ** attempt` seconds after a null result; the item is dropped only
after the final attempt.  In the Ethereum processor the helper fetches
swallow every exception and return `None`, so the retry loop always
performs exactly one attempt and a failed item is dropped without retry. -/
theorem C4_retry_policy (oracle : Nat → Solana.FetchOutcome) :
    (Solana.detailFetchWithRetry oracle).attempts ≤ Solana.max_retries ∧
    (oracle 0 = .rateLimited → oracle 1 = .rateLimited → oracle 2 = .success →
      Solana.detailFetchWithRetry oracle =
        { fetched := true, attempts := 3, sleeps := [1, 5/2] }) ∧
    ((∀ i, oracle i = .nullResult) →
      Solana.detailFetchWithRetry oracle =
        { fetched := false, attempts := 3, sleeps := [1, 2] }) ∧
    (∀ (d : Option Eth.TxDetail) (r : Option Eth.TxReceipt),
      Eth.retryLoop (fun _ => .value d r) 0 Eth.max_retries = (some (d, r), 1, [])) := by
  refine ⟨retryLoop_attempts_le oracle Solana.max_retries 0, ?_, ?_, ?_⟩
  · intro h0 h1 h2
    simp [Solana.detailFetchWithRetry, Solana.max_retries, Solana.retryLoop, h0, h1, h2]
    norm_num
  · intro h
    simp [Solana.detailFetchWithRetry, Solana.max_retries, Solana.retryLoop, h]
  · intro d r
    rfl

def c4Oracle : Nat → Solana.FetchOutcome
  | 0 => .rateLimited
  | 1 => .rateLimited
  | _ => .success

theorem C4_retry_policy_witness :
    Solana.detailFetchWithRetry c4Oracle =
      { fetched := true, attempts := 3, sleeps := [1, 5/2] } ∧
    Solana.detailFetchWithRetry (fun _ => .nullResult) =
      { fetched := false, attempts := 3, sleeps := [1, 2] } ∧
    Eth.retryLoop (fun _ => .value none none) 0 Eth.max_retries =
      (some (none, none), 1, []) :=
  ⟨(C4_retry_policy c4Oracle).2.1 rfl rfl rfl,
   (C4_retry_policy (fun _ => .nullResult)).2.2.1 (fun _ => rfl),
   (C4_retry_policy (fun _ => .nullResult)).2.2.2 none none⟩

/-! ## C9: concurrency gate -/

theorem runningCount_replicate_waiting (n : Nat) :
    runningCount (List.replicate n TaskPhase.waiting) = 0 := by
  induction n with
  | zero => rfl
  | succ k ih => simp [runningCount, List.replicate, List.countP_cons] at ih ⊢

theorem semStep_invariant {limit : Nat} {s s' : List TaskPhase}
    (h : SemStep limit s s') (hs : runningCount s ≤ limit) :
    runningCount s' ≤ limit := by
  cases h with
  | acquire pre post hlt =>
    simp only [runningCount, List.countP_append, List.countP_cons] at *
    simp at *
    omega
  | release pre post =>
    simp only [runningCount, List.countP_append, List.countP_cons] at *
    simp at *
    omega

theorem runningCount_le_of_reachable {limit n : Nat} {s : List TaskPhase}
    (h : Relation.ReflTransGen (SemStep limit) (List.replicate n TaskPhase.waiting) s) :
    runningCount s ≤ limit := by
  induction h with
  | refl => simp [runningCount_replicate_waiting]
  | tail _ step ih => exact semStep_invariant step ih

/-- C9: however many detail-fetch tasks are enqueued, every state
reachable under the semaphore-gated scheduler has at most
`solana_semaphore_limit = 3` (respectively `eth_semaphore_limit = 5`)
tasks inside the `async with semaphore` region, i.e. at most that many
detail fetches in flight. -/
theorem C9_semaphore_bound (n : Nat) (s s' : List TaskPhase) :
    (Relation.ReflTransGen (SemStep solana_semaphore_limit)
        (List.replicate n TaskPhase.waiting) s →
      runningCount s ≤ solana_semaphore_limit) ∧
    (Relation.ReflTransGen (SemStep eth_semaphore_limit)
        (List.replicate n TaskPhase.waiting) s' →
      runningCount s' ≤ eth_semaphore_limit) :=
  ⟨fun h => runningCount_le_of_reachable h,
   fun h => runningCount_le_of_reachable h⟩

theorem C9_semaphore_bound_witness :
    runningCount (List.replicate 8 TaskPhase.waiting) ≤ solana_semaphore_limit ∧
    runningCount (List.replicate 8 TaskPhase.waiting) ≤ eth_semaphore_limit :=
  ⟨(C9_semaphore_bound 8 (List.replicate 8 TaskPhase.waiting)
      (List.replicate 8 TaskPhase.waiting)).1 Relation.ReflTransGen.refl,
   (C9_semaphore_bound 8 (List.replicate 8 TaskPhase.waiting)
      (List.replicate 8 TaskPhase.waiting)).2 Relation.ReflTransGen.refl⟩

/-! ## C2: daily address quota -/

theorem logQuery_self_mem (used : List String) (addr : String) :
    lower addr ∈ Endpoint.logQuery used addr := by
  unfold Endpoint.logQuery
  split
  · assumption
  · simp

theorem logQuery_of_mem {used : List String} {addr : String}
    (h : lower addr ∈ used) : Endpoint.logQuery used addr = used := by
  simp [Endpoint.logQuery, h]

/-- Accepted free-tier call, fully unfolded. -/
theorem analyze_accepted_free (α : Type) (used : List String) (addr tier : String)
    (g : α) (haddr : addr ≠ "") (hf : lower tier = "free")
    (hnr : ¬ Endpoint.quota_rejected Endpoint.free_daily_limit used addr) :
    Endpoint.analyze_solana_wallet_endpoint α used addr tier g =
      .ok (.success g (Endpoint.freeRateLimitInfo used addr),
        Endpoint.logQuery used addr) := by
  unfold Endpoint.analyze_solana_wallet_endpoint
  rw [if_neg haddr]
  simp [hf, hnr]

/-- Accepted pro-tier call, fully unfolded. -/
theorem analyze_accepted_pro (α : Type) (used : List String) (addr tier : String)
    (g : α) (haddr : addr ≠ "") (hp : lower tier = "pro")
    (hnr : ¬ Endpoint.quota_rejected Endpoint.pro_daily_limit used addr) :
    Endpoint.analyze_solana_wallet_endpoint α used addr tier g =
      .ok (.success g (Endpoint.proRateLimitInfo used addr),
        Endpoint.logQuery used addr) := by
  unfold Endpoint.analyze_solana_wallet_endpoint
  rw [if_neg haddr]
  simp [hp, hnr]

theorem freeRateLimitInfo_remaining_stable (used : List String) (addr : String) :
    (Endpoint.freeRateLimitInfo used addr).remaining ≤
      (Endpoint.freeRateLimitInfo (Endpoint.logQuery used addr) addr).remaining := by
  by_cases hmem : lower addr ∈ used
  · rw [logQuery_of_mem hmem]
  · simp [Endpoint.freeRateLimitInfo, Endpoint.logQuery, hmem]
    omega

theorem proRateLimitInfo_remaining_stable (used : List String) (addr : String) :
    (Endpoint.proRateLimitInfo used addr).remaining ≤
      (Endpoint.proRateLimitInfo (Endpoint.logQuery used addr) addr).remaining := by
  by_cases hmem : lower addr ∈ used
  · rw [logQuery_of_mem hmem]
  · simp [Endpoint.proRateLimitInfo, Endpoint.logQuery, hmem]
    omega

/-- C2: for any valid tier — (i) a query of an address not in today's
distinct-address set, when that set's size already equals the tier's
`daily_address_limit`, is rejected with the 403 quota signal whatever
graph data would have been fetched (the rejection happens before the
fetch, so the result is the same for every candidate payload); (ii) after
an accepted query of an address, querying the same address again reports
a `remaining` quota no smaller than the first call's, and the logged
distinct-address set does not grow. -/
theorem C2_quota_idempotent (α : Type) (used : List String) (addr tier : String)
    (g : α) (haddr : addr ≠ "")
    (htier : lower tier = "free" ∨ lower tier = "pro") :
    (lower addr ∉ used →
      used.length = (get_subscription_limits tier).daily_address_limit →
      ∀ g' : α, Endpoint.analyze_solana_wallet_endpoint α used addr tier g' =
        .error ⟨403, if lower tier = "free" then "Free tier daily limit reached."
          else "Pro tier daily limit reached."⟩) ∧
    (¬ Endpoint.quota_rejected (get_subscription_limits tier).daily_address_limit
        used addr →
      ∃ (r1 r2 : Endpoint.RateLimitInfo) (used1 used2 : List String),
        Endpoint.analyze_solana_wallet_endpoint α used addr tier g =
          .ok (.success g r1, used1) ∧
        Endpoint.analyze_solana_wallet_endpoint α used1 addr tier g =
          .ok (.success g r2, used2) ∧
        r1.remaining ≤ r2.remaining ∧ used2 = used1) := by
  rcases htier with hf | hp
  · have hlim : (get_subscription_limits tier).daily_address_limit =
        Endpoint.free_daily_limit := by
      simp [get_subscription_limits, hf, Endpoint.free_daily_limit]
    constructor
    · intro hnotin hlen g'
      have hq : Endpoint.quota_rejected Endpoint.free_daily_limit used addr := by
        refine ⟨hnotin, ?_⟩
        rw [hlen, hlim]
      unfold Endpoint.analyze_solana_wallet_endpoint
      rw [if_neg haddr]
      simp [hf, hq]
    · intro hnr
      rw [hlim] at hnr
      have hnr2 : ¬ Endpoint.quota_rejected Endpoint.free_daily_limit
          (Endpoint.logQuery used addr) addr := by
        intro hc
        exact hc.1 (logQuery_self_mem used addr)
      refine ⟨Endpoint.freeRateLimitInfo used addr,
        Endpoint.freeRateLimitInfo (Endpoint.logQuery used addr) addr,
        Endpoint.logQuery used addr,
        Endpoint.logQuery (Endpoint.logQuery used addr) addr,
        analyze_accepted_free α used addr tier g haddr hf hnr,
        analyze_accepted_free α _ addr tier g haddr hf hnr2,
        freeRateLimitInfo_remaining_stable used addr,
        logQuery_of_mem (logQuery_self_mem used addr)⟩
  · have hlim : (get_subscription_limits tier).daily_address_limit =
        Endpoint.pro_daily_limit := by
      simp [get_subscription_limits, hp, Endpoint.pro_daily_limit]
    constructor
    · intro hnotin hlen g'
      have hq : Endpoint.quota_rejected Endpoint.pro_daily_limit used addr := by
        refine ⟨hnotin, ?_⟩
        rw [hlen, hlim]
      unfold Endpoint.analyze_solana_wallet_endpoint
      rw [if_neg haddr]
      simp [hp, hq]
    · intro hnr
      rw [hlim] at hnr
      have hnr2 : ¬ Endpoint.quota_rejected Endpoint.pro_daily_limit
          (Endpoint.logQuery used addr) addr := by
        intro hc
        exact hc.1 (logQuery_self_mem used addr)
      refine ⟨Endpoint.proRateLimitInfo used addr,
        Endpoint.proRateLimitInfo (Endpoint.logQuery used addr) addr,
        Endpoint.logQuery used addr,
        Endpoint.logQuery (Endpoint.logQuery used addr) addr,
        analyze_accepted_pro α used addr tier g haddr hp hnr,
        analyze_accepted_pro α _ addr tier g haddr hp hnr2,
        proRateLimitInfo_remaining_stable used addr,
        logQuery_of_mem (logQuery_self_mem used addr)⟩

theorem C2_quota_idempotent_witness :
    Endpoint.analyze_solana_wallet_endpoint Nat ["a", "b", "c", "d", "e"] "f" "free" 0 =
      .error ⟨403, "Free tier daily limit reached."⟩ ∧
    (∃ (r1 r2 : Endpoint.RateLimitInfo) (used1 used2 : List String),
      Endpoint.analyze_solana_wallet_endpoint Nat [] "x" "pro" 0 =
        .ok (.success 0 r1, used1) ∧
      Endpoint.analyze_solana_wallet_endpoint Nat used1 "x" "pro" 0 =
        .ok (.success 0 r2, used2) ∧
      r1.remaining ≤ r2.remaining ∧ used2 = used1) := by
  constructor
  · have h := (C2_quota_idempotent Nat ["a", "b", "c", "d", "e"] "f" "free" 0
      (by decide) (Or.inl (by decide))).1 (by decide) (by decide) 0
    rw [h]
    decide
  · exact (C2_quota_idempotent Nat [] "x" "pro" 0 (by decide) (Or.inr (by decide))).2
      (by decide)

/-! ## C5: surfacing of the quota rejection -/

/-- C5: the claim that `QuotaExceeded` reaches the caller as a distinct,
identifiable rejection fails on the `POST /wallet` route: the handler's
blanket `except Exception` catches the endpoint's
`HTTPException(403, "Free tier daily limit reached.")` and re-raises
`HTTPException(500, str(e))`, so a free-tier user at their daily limit
receives a generic 500 — the same status as any other internal failure
(shown here next to the invalid-address case, which is mangled the same
way from 400 to 500). -/
theorem C5_route_masks_quota_rejection :
    Endpoint.fetch_wallet_data Nat true ["a", "b", "c", "d", "e"] "f" "free" 0 =
      .error ⟨500, "403: Free tier daily limit reached."⟩ ∧
    Endpoint.fetch_wallet_data Nat false ["a", "b", "c", "d", "e"] "f" "free" 0 =
      .error ⟨500, "400: Invalid Solana address"⟩ := by
  decide

/-! ## C8: address case normalization -/

/-- C8 (counterexample): the claim says base-58 (Solana) addresses are
compared case-sensitively, and in particular that the daily-quota
membership check distinguishes two Solana addresses that differ only in
letter case.  It does not: `WalletQueryLogs.from_query` lowercases the
stored address for every chain, and the quota check compares
`wallet_address.lower()` against that set, so the case-variant "AbC" of
an already-logged "abc" is accepted as already-used even with the
distinct-address set full (5 of 5), consuming no quota and growing no
set — the two case-variants are conflated, not distinguished. -/
theorem C8_counterexample :
    (WalletQueryLogs.from_query "u" "AbC" "free" "solana" "t").wallet_address =
      (WalletQueryLogs.from_query "u" "aBc" "free" "solana" "t").wallet_address ∧
    Endpoint.analyze_solana_wallet_endpoint Nat ["abc", "b", "c", "d", "e"] "AbC"
        "free" 7 =
      .ok (.success 7 { addresses_used_today := 5, daily_limit := 5, remaining := 0 },
        ["abc", "b", "c", "d", "e"]) := by
  decide

/-- C8 (amended): the query-log model lowercases the address for both
chains, and the quota rejection test and the day's logged set depend only
on the lowercased address — so any two addresses equal up to letter case
(hex or base-58 alike) are interchangeable for the daily quota. -/
theorem C8_quota_lowercases_all_chains (user addr b tier chain created : String)
    (limit : Nat) (used : List String) (h : lower addr = lower b) :
    (WalletQueryLogs.from_query user addr tier chain created).wallet_address =
      lower addr ∧
    (Endpoint.quota_rejected limit used addr ↔
      Endpoint.quota_rejected limit used b) ∧
    Endpoint.logQuery used addr = Endpoint.logQuery used b := by
  refine ⟨rfl, ?_, ?_⟩ <;> simp [Endpoint.quota_rejected, Endpoint.logQuery, h]

theorem C8_quota_lowercases_all_chains_witness :
    (WalletQueryLogs.from_query "u" "AbC" "free" "ethereum" "t").wallet_address =
      "abc" ∧
    (Endpoint.quota_rejected 5 ["abc"] "AbC" ↔
      Endpoint.quota_rejected 5 ["abc"] "aBc") ∧
    Endpoint.logQuery ["abc"] "AbC" = Endpoint.logQuery ["abc"] "aBc" := by
  have h := C8_quota_lowercases_all_chains "u" "AbC" "aBc" "free" "ethereum" "t" 5
    ["abc"] (by decide)
  exact ⟨by rw [h.1]; decide, h.2.1, h.2.2⟩

/-! ## Batch-processor lemmas -/

/-- The truncating driver loop returns the first `m` records of the
sequential stream. -/
theorem solana_batchLoop_eq_take (p : String → Rat) (u : String) (e : Int)
    (d : String → Option Solana.TxPayload) (m : Nat) :
    ∀ (sigs : List Solana.SigInfo) (acc : List Solana.TxRecord)
      (seen : List Solana.TransferKey),
      Solana.batchLoop p u e d m sigs acc seen =
        (acc ++ Solana.processAll p u e d sigs seen).take m := by
  intro sigs
  induction sigs with
  | nil =>
    intro acc seen
    simp [Solana.batchLoop, Solana.processAll]
  | cons sig rest ih =>
    intro acc seen
    rw [Solana.batchLoop, Solana.processAll]
    by_cases hm : m ≤ acc.length
    · rw [if_pos hm, List.take_append_eq_append_take,
        Nat.sub_eq_zero_of_le hm, List.take_zero, List.append_nil]
    · rw [if_neg hm, ih, List.append_assoc]

theorem eth_batchLoop_eq_take (p : String → Rat) (u : String) (e now : Int)
    (dOf : String → Option Eth.TxDetail) (rOf : String → Option Eth.TxReceipt)
    (m : Nat) :
    ∀ (trs : List Eth.AlchemyTransfer) (acc : List Eth.EthRecord)
      (seen : List Solana.TransferKey),
      Eth.batchLoop p u e now dOf rOf m trs acc seen =
        (acc ++ Eth.processAll p u e now dOf rOf trs seen).take m := by
  intro trs
  induction trs with
  | nil =>
    intro acc seen
    simp [Eth.batchLoop, Eth.processAll]
  | cons tr rest ih =>
    intro acc seen
    rw [Eth.batchLoop, Eth.processAll]
    by_cases hm : m ≤ acc.length
    · rw [if_pos hm, List.take_append_eq_append_take,
        Nat.sub_eq_zero_of_le hm, List.take_zero, List.append_nil]
    · rw [if_neg hm, ih, List.append_assoc]

/-- All records emitted by the inner dedup loop carry the transaction's
hash and timestamp, their keys are pairwise distinct, and none of their
keys was in the incoming `seen_transfers` set. -/
theorem processTransfers_spec (p : String → Rat) (base : Solana.BaseTxInfo) :
    ∀ (l : List Solana.Transfer) (seen : List Solana.TransferKey),
      (∀ r ∈ (Solana.processTransfers p base l seen).1,
        r.hash = base.hash ∧ r.timestamp = base.timestamp) ∧
      ((Solana.processTransfers p base l seen).1.map Solana.TxRecord.key).Nodup ∧
      (∀ k ∈ (Solana.processTransfers p base l seen).1.map Solana.TxRecord.key,
        k ∉ seen) := by
  intro l
  induction l with
  | nil =>
    intro seen
    simp [Solana.processTransfers]
  | cons tr rest ih =>
    intro seen
    by_cases hk : (base.hash, tr.source, tr.destination, tr.amount, tr.token) ∈ seen
    · simpa [Solana.processTransfers, hk] using ih seen
    · have ihs := ih ((base.hash, tr.source, tr.destination, tr.amount, tr.token) :: seen)
      rw [Solana.processTransfers]
      rw [if_neg hk]
      refine ⟨?_, ?_, ?_⟩
      · intro r hr
        rcases List.mem_cons.mp hr with h | h
        · subst h
          exact ⟨rfl, rfl⟩
        · exact ihs.1 r h
      · rw [List.map_cons, List.nodup_cons]
        refine ⟨?_, ihs.2.1⟩
        intro hmem
        have := ihs.2.2 _ hmem
        simp [Solana.mkRecord, Solana.TxRecord.key] at this
      · intro k hkmem
        rcases List.mem_cons.mp hkmem with h | h
        · subst h
          simpa [Solana.mkRecord, Solana.TxRecord.key] using hk
        · have := ihs.2.2 k h
          intro hks
          exact this (List.mem_cons_of_mem _ hks)

/-- Every record emitted for one signature carries that signature as its
hash, sits inside the time window, and the records' keys are pairwise
distinct. -/
theorem process_single_spec (p : String → Rat) (u : String) (e : Int)
    (d : String → Option Solana.TxPayload) (seen : List Solana.TransferKey)
    (sig : Solana.SigInfo) :
    (∀ r ∈ (Solana.process_single_transaction p u e d seen sig).1.getD [],
      r.hash = sig.signature ∧ e ≤ r.timestamp) ∧
    (((Solana.process_single_transaction p u e d seen sig).1.getD []).map
      Solana.TxRecord.key).Nodup := by
  unfold Solana.process_single_transaction
  cases hbt : sig.blockTime with
  | none => simp
  | some t =>
    dsimp only
    by_cases ht0 : t = 0
    · simp [ht0]
    · rw [if_neg ht0]
      by_cases ht : t < e
      · simp [ht]
      · rw [if_neg ht]
        cases hd : d sig.signature with
        | none => simp
        | some payload =>
          dsimp only
          cases htr : payload.transfers with
          | nil =>
            simp [Solana.syntheticRecord]
            omega
          | cons a l =>
            dsimp only
            have h := processTransfers_spec p
              { hash := sig.signature, timestamp := t, fee := payload.fee
                status := if payload.errIsNone then "success" else "failed"
                slot := sig.slot } payload.transfers seen
            rw [htr] at h
            simp only [Option.getD_some]
            refine ⟨?_, h.2.1⟩
            intro r hr
            have h1 := h.1 r hr
            have h2 : r.timestamp = t := h1.2
            exact ⟨h1.1, by omega⟩

/-- Records in the stream come from some input signature and respect the
time window. -/
theorem solana_processAll_mem (p : String → Rat) (u : String) (e : Int)
    (d : String → Option Solana.TxPayload) :
    ∀ (sigs : List Solana.SigInfo) (seen : List Solana.TransferKey)
      (r : Solana.TxRecord), r ∈ Solana.processAll p u e d sigs seen →
      r.hash ∈ sigs.map Solana.SigInfo.signature ∧ e ≤ r.timestamp := by
  intro sigs
  induction sigs with
  | nil => simp [Solana.processAll]
  | cons sig rest ih =>
    intro seen r hr
    rw [Solana.processAll] at hr
    rcases List.mem_append.mp hr with h | h
    · have := (process_single_spec p u e d seen sig).1 r h
      exact ⟨by simp [this.1], this.2⟩
    · have := ih _ r h
      exact ⟨by simp only [List.map_cons, List.mem_cons]; exact Or.inr this.1, this.2⟩

/-- With pairwise-distinct input signatures the whole stream has
pairwise-distinct dedup keys: keys of one signature's records are
distinct among themselves, and records of different signatures differ in
the hash component of the key. -/
theorem solana_processAll_nodup (p : String → Rat) (u : String) (e : Int)
    (d : String → Option Solana.TxPayload) :
    ∀ (sigs : List Solana.SigInfo) (seen : List Solana.TransferKey),
      (sigs.map Solana.SigInfo.signature).Nodup →
      ((Solana.processAll p u e d sigs seen).map Solana.TxRecord.key).Nodup := by
  intro sigs
  induction sigs with
  | nil => simp [Solana.processAll]
  | cons sig rest ih =>
    intro seen hnd
    rw [List.map_cons, List.nodup_cons] at hnd
    rw [Solana.processAll, List.map_append]
    refine List.Nodup.append ((process_single_spec p u e d seen sig).2) (ih _ hnd.2) ?_
    intro k hk1 hk2
    obtain ⟨r1, hr1, hk1e⟩ := List.mem_map.mp hk1
    obtain ⟨r2, hr2, hk2e⟩ := List.mem_map.mp hk2
    have h1 : r1.hash = sig.signature :=
      ((process_single_spec p u e d seen sig).1 r1 hr1).1
    have h2 : r2.hash ∈ rest.map Solana.SigInfo.signature :=
      (solana_processAll_mem p u e d rest _ r2 hr2).1
    have hh : r1.hash = r2.hash := by
      have : Solana.TxRecord.key r1 = Solana.TxRecord.key r2 := by rw [hk1e, hk2e]
      exact congrArg Prod.fst this
    exact hnd.1 (by rw [← h1, hh]; exact h2)

/-- Per-transfer guarantees of the Ethereum processor: an emitted record
respects the time window, its key is fresh and is the only addition to
the dedup set; a skipped transfer leaves the set unchanged. -/
theorem eth_single_spec (p : String → Rat) (u : String) (e now : Int)
    (dOf : String → Option Eth.TxDetail) (rOf : String → Option Eth.TxReceipt)
    (seen : List Solana.TransferKey) (tr : Eth.AlchemyTransfer) :
    (∀ r, (Eth.process_single_transfer p u e now dOf rOf seen tr).1 = some r →
      e ≤ r.timestamp ∧ Eth.EthRecord.key r ∉ seen ∧
      (Eth.process_single_transfer p u e now dOf rOf seen tr).2 =
        Eth.EthRecord.key r :: seen) ∧
    ((Eth.process_single_transfer p u e now dOf rOf seen tr).1 = none →
      (Eth.process_single_transfer p u e now dOf rOf seen tr).2 = seen) := by
  unfold Eth.process_single_transfer
  cases hh : tr.hash with
  | none => cases hb : tr.blockNum <;> simp
  | some tx_hash =>
    cases hb : tr.blockNum with
    | none => simp
    | some block_num =>
      dsimp only
      cases hd : dOf tx_hash with
      | none => simp
      | some d =>
        dsimp only
        split
        next hlt => simp
        next hge =>
          split
          next hk => simp
          next hk =>
            constructor
            · intro r hr
              simp only [Option.some.injEq] at hr
              subst hr
              exact ⟨by omega, hk, rfl⟩
            · intro hr
              simp at hr

/-- Every record in the Ethereum stream respects the time window. -/
theorem eth_processAll_time (p : String → Rat) (u : String) (e now : Int)
    (dOf : String → Option Eth.TxDetail) (rOf : String → Option Eth.TxReceipt) :
    ∀ (trs : List Eth.AlchemyTransfer) (seen : List Solana.TransferKey)
      (r : Eth.EthRecord), r ∈ Eth.processAll p u e now dOf rOf trs seen →
      e ≤ r.timestamp := by
  intro trs
  induction trs with
  | nil => simp [Eth.processAll]
  | cons tr rest ih =>
    intro seen r hr
    rw [Eth.processAll] at hr
    cases hstep : (Eth.process_single_transfer p u e now dOf rOf seen tr).1 with
    | none =>
      rw [hstep] at hr
      simp only [Option.toList_none, List.nil_append] at hr
      exact ih _ r hr
    | some r0 =>
      rw [hstep] at hr
      simp only [Option.toList_some, List.singleton_append, List.mem_cons] at hr
      rcases hr with rfl | hr
      · exact ((eth_single_spec p u e now dOf rOf seen tr).1 r hstep).1
      · exact ih _ r hr

/-- Keys emitted by the Ethereum stream are fresh with respect to the
incoming dedup set. -/
theorem eth_processAll_fresh (p : String → Rat) (u : String) (e now : Int)
    (dOf : String → Option Eth.TxDetail) (rOf : String → Option Eth.TxReceipt) :
    ∀ (trs : List Eth.AlchemyTransfer) (seen : List Solana.TransferKey)
      (k : Solana.TransferKey),
      k ∈ (Eth.processAll p u e now dOf rOf trs seen).map Eth.EthRecord.key →
      k ∉ seen := by
  intro trs
  induction trs with
  | nil => simp [Eth.processAll]
  | cons tr rest ih =>
    intro seen k hk
    rw [Eth.processAll] at hk
    cases hstep : (Eth.process_single_transfer p u e now dOf rOf seen tr).1 with
    | none =>
      rw [hstep] at hk
      simp only [Option.toList_none, List.nil_append] at hk
      rw [(eth_single_spec p u e now dOf rOf seen tr).2 hstep] at hk
      exact ih _ k hk
    | some r0 =>
      have hspec := (eth_single_spec p u e now dOf rOf seen tr).1 r0 hstep
      rw [hstep] at hk
      simp only [Option.toList_some, List.singleton_append, List.map_cons,
        List.mem_cons] at hk
      rcases hk with rfl | hk
      · exact hspec.2.1
      · rw [hspec.2.2] at hk
        have := ih _ k hk
        intro hks
        exact this (List.mem_cons_of_mem _ hks)

/-- The Ethereum stream never emits two records with the same dedup key. -/
theorem eth_processAll_nodup (p : String → Rat) (u : String) (e now : Int)
    (dOf : String → Option Eth.TxDetail) (rOf : String → Option Eth.TxReceipt) :
    ∀ (trs : List Eth.AlchemyTransfer) (seen : List Solana.TransferKey),
      ((Eth.processAll p u e now dOf rOf trs seen).map Eth.EthRecord.key).Nodup := by
  intro trs
  induction trs with
  | nil => simp [Eth.processAll]
  | cons tr rest ih =>
    intro seen
    rw [Eth.processAll]
    cases hstep : (Eth.process_single_transfer p u e now dOf rOf seen tr).1 with
    | none =>
      simp only [Option.toList_none, List.nil_append]
      exact ih _
    | some r0 =>
      have hspec := (eth_single_spec p u e now dOf rOf seen tr).1 r0 hstep
      simp only [Option.toList_some, List.singleton_append, List.map_cons,
        List.nodup_cons]
      refine ⟨?_, ih _⟩
      intro hmem
      rw [hspec.2.2] at hmem
      exact eth_processAll_fresh p u e now dOf rOf rest _ _ hmem (List.mem_cons_self _ _)

/-! ## Graph-assembly lemmas -/

theorem buildGraphLoop_edges :
    ∀ (txs : List Solana.TxRecord) (st : List Solana.GraphNode × List String)
      (edges : List Solana.GraphEdge),
      (Solana.buildGraphLoop txs st edges).2 = edges ++ txs.map Solana.edgeOfTx := by
  intro txs
  induction txs with
  | nil =>
    intro st edges
    simp [Solana.buildGraphLoop]
  | cons tx rest ih =>
    intro st edges
    rw [Solana.buildGraphLoop, ih]
    simp

/-- Invariant carried through the node-building loop: every seen address
has a node, and every node is the main wallet or an external wallet. -/
def NodeInv (addr : String) (st : List Solana.GraphNode × List String) : Prop :=
  (∀ a ∈ st.2, ∃ n ∈ st.1, n.id = a) ∧
  (∀ n ∈ st.1, n.id = addr ∨ n.type = "external_wallet")

theorem addNode_inv {addr : String} {st : List Solana.GraphNode × List String}
    (a : String) (h : NodeInv addr st) : NodeInv addr (Solana.addNode st a) := by
  unfold Solana.addNode
  split
  · exact h
  · constructor
    · intro x hx
      rcases List.mem_append.mp hx with hx | hx
      · obtain ⟨n, hn, hni⟩ := h.1 x hx
        exact ⟨n, List.mem_append_left _ hn, hni⟩
      · simp only [List.mem_singleton] at hx
        exact ⟨Solana.externalNode a, by simp, hx.symm⟩
    · intro n hn
      rcases List.mem_append.mp hn with hn | hn
      · exact h.2 n hn
      · simp only [List.mem_singleton] at hn
        subst hn
        exact Or.inr rfl

theorem addNode_seen_mem (st : List Solana.GraphNode × List String) (a : String) :
    a ∈ (Solana.addNode st a).2 := by
  unfold Solana.addNode
  split
  · assumption
  · simp

theorem addNode_nodes_mono {st : List Solana.GraphNode × List String} (a : String)
    {n : Solana.GraphNode} (h : n ∈ st.1) : n ∈ (Solana.addNode st a).1 := by
  unfold Solana.addNode
  split
  · exact h
  · exact List.mem_append_left _ h

theorem buildGraphLoop_nodes_mono :
    ∀ (txs : List Solana.TxRecord) (st : List Solana.GraphNode × List String)
      (edges : List Solana.GraphEdge) (n : Solana.GraphNode),
      n ∈ st.1 → n ∈ (Solana.buildGraphLoop txs st edges).1 := by
  intro txs
  induction txs with
  | nil =>
    intro st edges n h
    simpa [Solana.buildGraphLoop] using h
  | cons tx rest ih =>
    intro st edges n h
    rw [Solana.buildGraphLoop]
    exact ih _ _ n (addNode_nodes_mono _ (addNode_nodes_mono _ h))

theorem buildGraphLoop_node_spec (addr : String) :
    ∀ (txs : List Solana.TxRecord) (st : List Solana.GraphNode × List String)
      (edges : List Solana.GraphEdge), NodeInv addr st →
      (∀ n ∈ (Solana.buildGraphLoop txs st edges).1,
        n.id = addr ∨ n.type = "external_wallet") ∧
      (∀ tx ∈ txs, ∃ n ∈ (Solana.buildGraphLoop txs st edges).1,
        n.id = tx.destination) := by
  intro txs
  induction txs with
  | nil =>
    intro st edges h
    exact ⟨by simpa [Solana.buildGraphLoop] using h.2, by simp⟩
  | cons tx rest ih =>
    intro st edges h
    rw [Solana.buildGraphLoop]
    have h2 : NodeInv addr (Solana.addNode (Solana.addNode st tx.source) tx.destination) :=
      addNode_inv tx.destination (addNode_inv tx.source h)
    have hrest := ih (Solana.addNode (Solana.addNode st tx.source) tx.destination)
      (edges ++ [Solana.edgeOfTx tx]) h2
    refine ⟨hrest.1, ?_⟩
    intro t ht
    rcases List.mem_cons.mp ht with rfl | ht
    · obtain ⟨n, hn, hni⟩ := h2.1 _ (addNode_seen_mem _ _)
      exact ⟨n, buildGraphLoop_nodes_mono rest _ _ n hn, hni⟩
    · exact hrest.2 t ht

/-! ## C1: max_transactions truncation and the transaction_limited flag -/

/-- C1 (amended): for every tier (whose limits give
`max_transactions = N`) and every input signature list, the engine
returns at most `N` transactions and hence at most `N` graph edges; and
`limitations_applied.transaction_limited` is `true` iff exactly `N`
transactions were returned — the code compares the returned count with
`N` only, without checking that the eligible set was strictly larger. -/
theorem C1_transaction_limit (p : String → Rat)
    (detail : String → Option Solana.TxPayload) (address tier : String)
    (balance : Rat) (sigs : List Solana.SigInfo) (now : Int) :
    (Solana.get_wallet_graph_data p detail address tier balance sigs now).edges.length ≤
      (get_subscription_limits tier).max_transactions ∧
    (Solana.get_wallet_graph_data p detail address tier balance sigs now).total_transactions ≤
      (get_subscription_limits tier).max_transactions ∧
    ((Solana.get_wallet_graph_data p detail address tier balance sigs
        now).summary.limitations_applied.transaction_limited = true ↔
      (Solana.get_wallet_graph_data p detail address tier balance sigs
        now).total_transactions = (get_subscription_limits tier).max_transactions) := by
  have htx : ∀ (fs : List Solana.SigInfo) (e : Int),
      (Solana.process_transactions_batch p address fs
        (get_subscription_limits tier).max_transactions e detail).length ≤
        (get_subscription_limits tier).max_transactions := by
    intro fs e
    rw [Solana.process_transactions_batch, solana_batchLoop_eq_take]
    exact List.length_take_le _ _
  unfold Solana.get_wallet_graph_data Solana.assembleResponse
  dsimp only
  rw [buildGraphLoop_edges]
  simp only [List.nil_append, List.length_map, beq_iff_eq]
  exact ⟨htx _ _, htx _ _, trivial⟩

def c1Detail : String → Option Solana.TxPayload := fun _ => some ⟨[], 0, true⟩

def c1Sigs : List Solana.SigInfo :=
  (List.range 50).map (fun i => ⟨toString i, some 1, 0⟩)

/-- C1 (counterexample): the claim's "iff exactly N transactions were
returned out of a strictly larger eligible set" is false on the code.
Free tier (`N = 50`) with exactly 50 in-window signatures, every one
yielding one record: the full eligible stream has exactly 50 records —
not more — yet the engine returns 50 and sets `transaction_limited`. -/
theorem C1_no_strictness_check :
    (Solana.get_wallet_graph_data (fun _ => 0) c1Detail "W" "free" 0 c1Sigs
      0).summary.limitations_applied.transaction_limited = true ∧
    (Solana.get_wallet_graph_data (fun _ => 0) c1Detail "W" "free" 0 c1Sigs
      0).total_transactions = 50 ∧
    (Solana.processAll (fun _ => 0) "W" (calculate_time_range "free" 0) c1Detail
      (Solana.filter_signatures (calculate_time_range "free" 0) 50 c1Sigs)
      []).length = 50 ∧
    ¬ ((Solana.get_wallet_graph_data (fun _ => 0) c1Detail "W" "free" 0 c1Sigs
        0).summary.limitations_applied.transaction_limited = true ↔
      ((Solana.get_wallet_graph_data (fun _ => 0) c1Detail "W" "free" 0 c1Sigs
          0).total_transactions = 50 ∧
        50 < (Solana.processAll (fun _ => 0) "W" (calculate_time_range "free" 0)
          c1Detail (Solana.filter_signatures (calculate_time_range "free" 0) 50
            c1Sigs) []).length)) := by
  decide

/-! ## C6: tier time window -/

/-- C6: with `time_range_days = D`, every record returned by either batch
processor has a timestamp at or after `now - D days`
(`calculate_time_range tier now`); Solana items without a `blockTime` and
items before the cutoff are excluded. -/
theorem C6_time_window :
    (∀ (p : String → Rat) (detail : String → Option Solana.TxPayload)
        (address tier : String) (now : Int) (sigs : List Solana.SigInfo)
        (r : Solana.TxRecord),
      r ∈ Solana.process_transactions_batch p address sigs
            (get_subscription_limits tier).max_transactions
            (calculate_time_range tier now) detail →
      calculate_time_range tier now ≤ r.timestamp) ∧
    (∀ (p : String → Rat) (u tier : String) (now : Int)
        (dOf : String → Option Eth.TxDetail) (rOf : String → Option Eth.TxReceipt)
        (trs : List Eth.AlchemyTransfer) (r : Eth.EthRecord),
      r ∈ Eth.process_eth_transfers_batch p u trs
            (get_subscription_limits tier).max_transactions
            (calculate_time_range tier now) now dOf rOf →
      calculate_time_range tier now ≤ r.timestamp) := by
  constructor
  · intro p detail address tier now sigs r hr
    rw [Solana.process_transactions_batch, solana_batchLoop_eq_take,
      List.nil_append] at hr
    exact (solana_processAll_mem p address (calculate_time_range tier now) detail
      sigs [] r (List.take_subset _ _ hr)).2
  · intro p u tier now dOf rOf trs r hr
    rw [Eth.process_eth_transfers_batch, eth_batchLoop_eq_take,
      List.nil_append] at hr
    exact eth_processAll_time p u (calculate_time_range tier now) now dOf rOf
      trs [] r (List.take_subset _ _ hr)

def c6SolRecord : Solana.TxRecord :=
  { hash := "s", timestamp := 1, chain := "Solana", fee := 0, status := "success"
    slot := 0, source := "W", destination := "System Program", amount := 0
    direction := "interaction", token := "SOL", token_address := none
    usd_equivalent := 0 }

def c6EthTransfer : Eth.AlchemyTransfer :=
  { hash := some "h", blockNum := some 21000000, fromAddress := "A"
    toAddress := "B", value := 1, category := "external", contractAddress := none
    contractDecimal := 18, contractValue := 0, blockTimestamp := some 0 }

def c6EthRecord : Eth.EthRecord :=
  { hash := "h", timestamp := 0, chain := "Ethereum", source := "a"
    destination := "b", amount := 1, direction := "outgoing", token := "ETH"
    token_address := none, fee := 0, status := "failed", block_number := 21000000
    usd_equivalent := 0, category := "external" }

theorem C6_time_window_witness :
    calculate_time_range "free" 0 ≤ c6SolRecord.timestamp ∧
    calculate_time_range "free" 0 ≤ c6EthRecord.timestamp :=
  ⟨C6_time_window.1 (fun _ => 0) (fun _ => some ⟨[], 0, true⟩) "W" "free" 0
    [⟨"s", some 1, 0⟩] c6SolRecord (by decide),
   C6_time_window.2 (fun _ => 0) "A" "free" 0 (fun _ => some ⟨0⟩) (fun _ => none)
    [c6EthTransfer] c6EthRecord (by
      norm_num [Eth.process_eth_transfers_batch, Eth.batchLoop,
        Eth.process_single_transfer, Eth.mkEthRecord, c6EthTransfer, c6EthRecord,
        calculate_time_range, get_subscription_limits, lower,
        Eth.EthRecord.key, freeTier]
      decide)⟩

/-! ## C7: dedup idempotence -/

/-- C7 (amended): the Ethereum processor never emits two records with the
same `TransferKey`, whatever the input; the Solana processor checks every
parsed transfer against the shared dedup set but does **not** dedup the
synthetic zero-transfer records, so its output keys are pairwise distinct
provided the input signature list has no duplicate signatures; and the
graph carries exactly one edge per returned record, so edge multiplicity
equals record multiplicity per key. -/
theorem C7_dedup_unique_keys :
    (∀ (p : String → Rat) (u : String) (e : Int)
        (d : String → Option Solana.TxPayload) (m : Nat)
        (sigs : List Solana.SigInfo),
      (sigs.map Solana.SigInfo.signature).Nodup →
      ((Solana.process_transactions_batch p u sigs m e d).map
        Solana.TxRecord.key).Nodup) ∧
    (∀ (p : String → Rat) (u : String) (e now : Int)
        (dOf : String → Option Eth.TxDetail)
        (rOf : String → Option Eth.TxReceipt) (m : Nat)
        (trs : List Eth.AlchemyTransfer),
      ((Eth.process_eth_transfers_batch p u trs m e now dOf rOf).map
        Eth.EthRecord.key).Nodup) ∧
    (∀ (address tier : String) (balance : Rat) (txs : List Solana.TxRecord),
      (Solana.assembleResponse address tier balance txs).edges =
        txs.map Solana.edgeOfTx) := by
  refine ⟨?_, ?_, ?_⟩
  · intro p u e d m sigs hnd
    rw [Solana.process_transactions_batch, solana_batchLoop_eq_take,
      List.nil_append, List.map_take]
    exact (List.take_sublist _ _).nodup (solana_processAll_nodup p u e d sigs [] hnd)
  · intro p u e now dOf rOf m trs
    rw [Eth.process_eth_transfers_batch, eth_batchLoop_eq_take,
      List.nil_append, List.map_take]
    exact (List.take_sublist _ _).nodup (eth_processAll_nodup p u e now dOf rOf trs [])
  · intro address tier balance txs
    unfold Solana.assembleResponse
    dsimp only
    rw [buildGraphLoop_edges, List.nil_append]

theorem C7_dedup_unique_keys_witness :
    ((Solana.process_transactions_batch (fun _ => 0) "W"
      [⟨"s1", some 1, 0⟩, ⟨"s2", some 1, 0⟩] 50 (-1)
      (fun _ => some ⟨[], 0, true⟩)).map Solana.TxRecord.key).Nodup :=
  C7_dedup_unique_keys.1 (fun _ => 0) "W" (-1) (fun _ => some ⟨[], 0, true⟩) 50
    [⟨"s1", some 1, 0⟩, ⟨"s2", some 1, 0⟩] (by decide)

/-- C7 (counterexample): the claim quantifies over every input list and
every pair of records with equal `TransferKey`.  A signature that appears
twice in the Solana input and whose payload parses to zero transfers
produces two synthetic records with the identical key
`("s", "W", "System Program", 0, "SOL")` — both survive, and the
assembled graph carries two edges for one key, because the synthetic
records bypass the `seen_transfers` check. -/
theorem C7_synthetic_bypasses_dedup :
    ((Solana.process_transactions_batch (fun _ => 0) "W"
        [⟨"s", some 1, 0⟩, ⟨"s", some 1, 0⟩] 50 (-1)
        (fun _ => some ⟨[], 0, true⟩)).map Solana.TxRecord.key) =
      [("s", "W", "System Program", 0, "SOL"),
       ("s", "W", "System Program", 0, "SOL")] ∧
    ¬ ((Solana.process_transactions_batch (fun _ => 0) "W"
        [⟨"s", some 1, 0⟩, ⟨"s", some 1, 0⟩] 50 (-1)
        (fun _ => some ⟨[], 0, true⟩)).map Solana.TxRecord.key).Nodup ∧
    (Solana.assembleResponse "W" "free" 0
      (Solana.process_transactions_batch (fun _ => 0) "W"
        [⟨"s", some 1, 0⟩, ⟨"s", some 1, 0⟩] 50 (-1)
        (fun _ => some ⟨[], 0, true⟩))).edges.length = 2 := by
  decide

/-! ## C10: synthetic "System Program" records -/

/-- C10: a Solana transaction inside the time window (with a truthy
`blockTime`: a zero block time is treated as missing by the code) whose
fetched payload parses to zero transfers yields exactly one synthetic
record — source the queried address, destination the literal
"System Program", amount 0, direction "interaction", token "SOL",
usd_equivalent 0 — without touching the dedup set; any such record in the
final transaction list counts toward `total_transactions`, contributes a
"System Program" external-wallet node, and contributes one edge of
weight 0. -/
theorem C10_synthetic_record :
    (∀ (p : String → Rat) (u : String) (e : Int)
        (d : String → Option Solana.TxPayload) (seen : List Solana.TransferKey)
        (sig : Solana.SigInfo) (t : Int) (payload : Solana.TxPayload),
      sig.blockTime = some t → t ≠ 0 → e ≤ t → d sig.signature = some payload →
      payload.transfers = [] →
      Solana.process_single_transaction p u e d seen sig =
        (some [{ hash := sig.signature, timestamp := t, chain := "Solana"
                 fee := payload.fee
                 status := if payload.errIsNone then "success" else "failed"
                 slot := sig.slot
                 source := u, destination := "System Program", amount := 0
                 direction := "interaction", token := "SOL", token_address := none
                 usd_equivalent := 0 }], seen)) ∧
    (∀ (address tier : String) (balance : Rat) (txs : List Solana.TxRecord)
        (tx : Solana.TxRecord), tx ∈ txs → tx.destination ≠ address →
      (Solana.assembleResponse address tier balance txs).total_transactions =
        txs.length ∧
      (∃ n ∈ (Solana.assembleResponse address tier balance txs).nodes,
        n.id = tx.destination ∧ n.type = "external_wallet") ∧
      Solana.edgeOfTx tx ∈ (Solana.assembleResponse address tier balance txs).edges ∧
      (Solana.edgeOfTx tx).weight = tx.amount) := by
  constructor
  · intro p u e d seen sig t payload hbt ht0 ht hd htr
    unfold Solana.process_single_transaction
    rw [hbt]
    dsimp only
    rw [if_neg ht0, if_neg (by omega : ¬ t < e), hd]
    dsimp only
    rw [htr]
    rfl
  · intro address tier balance txs tx htx hne
    have hinv : NodeInv address ([Solana.mainNode address balance], [address]) := by
      constructor
      · intro a ha
        simp only [List.mem_singleton] at ha
        exact ⟨Solana.mainNode address balance, by simp, ha.symm⟩
      · intro n hn
        simp only [List.mem_singleton] at hn
        subst hn
        exact Or.inl rfl
    have hspec := buildGraphLoop_node_spec address txs
      ([Solana.mainNode address balance], [address]) [] hinv
    refine ⟨rfl, ?_, ?_, rfl⟩
    · obtain ⟨n, hn, hid⟩ := hspec.2 tx htx
      refine ⟨n, hn, hid, ?_⟩
      rcases hspec.1 n hn with h | h
      · exact absurd (hid ▸ h) hne
      · exact h
    · have : (Solana.assembleResponse address tier balance txs).edges =
          txs.map Solana.edgeOfTx := by
        unfold Solana.assembleResponse
        dsimp only
        rw [buildGraphLoop_edges, List.nil_append]
      rw [this]
      exact List.mem_map_of_mem _ htx

def c10Record : Solana.TxRecord :=
  { hash := "s", timestamp := 5, chain := "Solana", fee := 0, status := "success"
    slot := 9, source := "W", destination := "System Program", amount := 0
    direction := "interaction", token := "SOL", token_address := none
    usd_equivalent := 0 }

theorem C10_synthetic_record_witness :
    Solana.process_single_transaction (fun _ => 0) "W" (-1)
        (fun _ => some ⟨[], 0, true⟩) [] ⟨"s", some 5, 9⟩ =
      (some [c10Record], []) ∧
    ((Solana.assembleResponse "W" "free" 0 [c10Record]).total_transactions = 1 ∧
      (∃ n ∈ (Solana.assembleResponse "W" "free" 0 [c10Record]).nodes,
        n.id = c10Record.destination ∧ n.type = "external_wallet") ∧
      Solana.edgeOfTx c10Record ∈
        (Solana.assembleResponse "W" "free" 0 [c10Record]).edges ∧
      (Solana.edgeOfTx c10Record).weight = c10Record.amount) :=
  ⟨C10_synthetic_record.1 (fun _ => 0) "W" (-1) (fun _ => some ⟨[], 0, true⟩) []
    ⟨"s", some 5, 9⟩ 5 ⟨[], 0, true⟩ rfl (by decide) (by decide) rfl rfl,
   C10_synthetic_record.2 "W" "free" 0 [c10Record] c10Record (by decide) (by decide)⟩

end BlockTrace

